import Mathlib

/-!
Verification of the icns-generator core module.

This file is a shallow embedding of `src/index.js` of the icns-generator
repository: the size planner (`sizes`, `allSizes`), the image renderer
(`createRoundedImage`), the input validation (`isSupportedFormat`), the
iconset assembler (`generateIconset`), the packaging orchestrator
(`generateIcns`) and the allowlist query (`getSupportedFormats`), together
with theorems settling the specification claims about them.

Numbers: the JS code computes with doubles on decimal inputs (padding
percents such as 8.75) whose values and intermediate results are exact, so
they are modelled as exact rationals. To keep every definition
kernel-executable, a rational is carried as an explicit integer fraction
(`Frac`, numerator over positive denominator, not necessarily reduced) and
the rounding arithmetic is done with integer division; the bridge lemmas
`mathRound_eq_floor` and `paddingPixels_eq_floor` prove the integer
computation equal to the exact `⌊x + 1/2⌋` formula on `ℚ`.

Filesystem effects are modelled by an explicit state (the set of existing
paths) plus a trace of filesystem-operation events. The external
collaborators (the sharp image library, the `iconutil` packager) are not
repository code: sharp's decoding/encoding is modelled as a successful
write, and `iconutil` as an `Except`-valued parameter.
-/

namespace IcnsGen

/-- An exact rational carried as an explicit fraction: the value of a JS
number such as the padding percent `8.75` (represented as `⟨875, 100⟩`).
The denominator is a natural number; all fractions built by the embedding
have positive denominators. -/
structure Frac where
  num : ℤ
  den : ℕ
deriving DecidableEq, Repr

/-- The rational value of a fraction. -/
def Frac.toRat (f : Frac) : ℚ :=
  (f.num : ℚ) / (f.den : ℚ)

/-- JS `Math.round` of the value of `f`: round half toward positive
infinity, `Math.round(x) = ⌊x + 0.5⌋`, computed with integer floor
division (`Int./` is floor division for positive denominators). -/
def mathRound (f : Frac) : ℤ :=
  (2 * f.num + (f.den : ℤ)) / (2 * (f.den : ℤ))

/-- The integer rounding computes exactly `⌊x + 1/2⌋` of the fraction's
rational value. -/
theorem mathRound_eq_floor (f : Frac) (h : 0 < f.den) :
    mathRound f = ⌊f.toRat + 1/2⌋ := by
  have hd : ((f.den : ℚ)) ≠ 0 := by
    exact_mod_cast Nat.pos_iff_ne_zero.mp h
  have key : f.toRat + 1/2 =
      (((2 * f.num + (f.den : ℤ)) : ℤ) : ℚ) / (((2 * f.den : ℕ)) : ℚ) := by
    push_cast
    field_simp [Frac.toRat]
    ring
  rw [key, Rat.floor_intCast_div_natCast]
  unfold mathRound
  push_cast
  rfl

/-- The module-level constant `sizes = [16, 32, 64, 128, 256, 512, 1024]`
(the canonical base edge lengths). -/
def sizes : List ℕ := [16, 32, 64, 128, 256, 512, 1024]

/-- The planner's output element: the JS object `{ name, size }`
(spec: SizeSpec). -/
structure IconSize where
  name : String
  size : ℕ
deriving DecidableEq, Repr

/-- The module-level constant `allSizes`: for each base size `s` the pair
`{name: "icon_SxS.png", size: s}` then `{name: "icon_SxS@2x.png", size: s*2}`. -/
def allSizes : List IconSize :=
  sizes.flatMap fun size =>
    [ { name := s!"icon_{size}x{size}.png", size := size },
      { name := s!"icon_{size}x{size}@2x.png", size := size * 2 } ]

/-- `paddingPixels = Math.round((size * padding) / 100)` from
`createRoundedImage` (the fraction `size * padding / 100` is carried
unreduced). -/
def paddingPixels (size : ℕ) (padding : Frac) : ℤ :=
  mathRound ⟨(size : ℤ) * padding.num, 100 * padding.den⟩

/-- `contentSize = size - paddingPixels * 2` from `createRoundedImage`. -/
def contentSize (size : ℕ) (padding : Frac) : ℤ :=
  (size : ℤ) - paddingPixels size padding * 2

/-- The integer `paddingPixels` computes exactly the specification formula
`round(size * paddingPercent / 100) = ⌊size * paddingPercent / 100 + 1/2⌋`
on exact rationals. -/
theorem paddingPixels_eq_floor (size : ℕ) (padding : Frac) (h : 0 < padding.den) :
    paddingPixels size padding = ⌊(size : ℚ) * padding.toRat / 100 + 1/2⌋ := by
  unfold paddingPixels
  rw [mathRound_eq_floor _ (by positivity)]
  have hd : ((padding.den : ℚ)) ≠ 0 := by
    exact_mod_cast Nat.pos_iff_ne_zero.mp h
  congr 1
  unfold Frac.toRat
  push_cast
  field_simp
  ring

/-- If the padding percent's value is zero (numerator 0), the computed
padding is 0 pixels. -/
theorem paddingPixels_of_num_zero (size : ℕ) (padding : Frac)
    (h : padding.num = 0) : paddingPixels size padding = 0 := by
  unfold paddingPixels mathRound
  simp only [h, mul_zero, zero_add]
  rcases Nat.eq_zero_or_pos padding.den with h0 | h0
  · simp [h0]
  · apply Int.ediv_eq_zero_of_lt
    · positivity
    · push_cast
      omega

/-- The `background` object passed to sharp's `extend`
(`{ r: 0, g: 0, b: 0, alpha: 0 }`). -/
structure Rgba where
  r : ℕ
  g : ℕ
  b : ℕ
  alpha : ℚ
deriving DecidableEq, Repr

/-- The `<rect>` element of the SVG mask generated by `createRoundedImage`. -/
structure MaskRect where
  x : ℤ
  y : ℤ
  width : ℤ
  height : ℤ
  rx : ℚ
  ry : ℚ
deriving DecidableEq, Repr

/-- The sharp pipeline built by `createRoundedImage`: resize to the content
square, extend with a transparent background on all four sides, composite
the SVG rounded-rect mask with the `dest-in` blend, encode as PNG. -/
structure Pipeline where
  input : String
  resizeWidth : ℤ
  resizeHeight : ℤ
  extendTop : ℤ
  extendBottom : ℤ
  extendLeft : ℤ
  extendRight : ℤ
  extendBackground : Rgba
  svgWidth : ℤ
  svgHeight : ℤ
  mask : MaskRect
  blend : String
deriving DecidableEq, Repr

/-- Shallow embedding of `createRoundedImage(input, size, padding = 0)`.
The JS function body is a straight-line computation with no conditional
`throw`: it always builds and returns the sharp pipeline. The codomain is
`Except` so that the presence or absence of a raised configuration error is
expressible in theorem statements; faithfully to the source, the function
always returns `Except.ok`. -/
def createRoundedImage (input : String) (size : ℕ) (padding : Frac := ⟨0, 1⟩) :
    Except String Pipeline :=
  let p := paddingPixels size padding
  let c := contentSize size padding
  let radius : ℚ := ((c : ℤ) : ℚ) * (0.2 : ℚ)
  Except.ok
    { input := input
      resizeWidth := c
      resizeHeight := c
      extendTop := p
      extendBottom := p
      extendLeft := p
      extendRight := p
      extendBackground := { r := 0, g := 0, b := 0, alpha := 0 }
      svgWidth := (size : ℤ)
      svgHeight := (size : ℤ)
      mask := { x := p, y := p, width := c, height := c, rx := radius, ry := radius }
      blend := "dest-in" }

/-- C3: the Size Planner `allSizes`, applied to the canonical base list
[16, 32, 64, 128, 256, 512, 1024], emits exactly 14 SizeSpecs: for each
base length L, `icon_{L}x{L}.png` at L immediately followed by
`icon_{L}x{L}@2x.png` at 2L, in ascending order of base length, standard
before double-density. -/
theorem c3_size_planner_emits_canonical_specs :
    allSizes.length = 14 ∧
      allSizes =
        [ ⟨"icon_16x16.png", 16⟩, ⟨"icon_16x16@2x.png", 32⟩,
          ⟨"icon_32x32.png", 32⟩, ⟨"icon_32x32@2x.png", 64⟩,
          ⟨"icon_64x64.png", 64⟩, ⟨"icon_64x64@2x.png", 128⟩,
          ⟨"icon_128x128.png", 128⟩, ⟨"icon_128x128@2x.png", 256⟩,
          ⟨"icon_256x256.png", 256⟩, ⟨"icon_256x256@2x.png", 512⟩,
          ⟨"icon_512x512.png", 512⟩, ⟨"icon_512x512@2x.png", 1024⟩,
          ⟨"icon_1024x1024.png", 1024⟩, ⟨"icon_1024x1024@2x.png", 2048⟩ ] :=
  ⟨rfl, rfl⟩

/-- C1 counterexample: at edge length 16 and padding percent 50 the content
size is 0 (non-positive), yet `createRoundedImage` does not fail with a
configuration error: it returns the fully built pipeline, whose resize
dimension is the non-positive content size. -/
theorem c1_counterexample :
    contentSize 16 ⟨50, 1⟩ = 0 ∧
      createRoundedImage "icon.png" 16 ⟨50, 1⟩ =
        Except.ok
          { input := "icon.png", resizeWidth := 0, resizeHeight := 0,
            extendTop := 8, extendBottom := 8, extendLeft := 8, extendRight := 8,
            extendBackground := { r := 0, g := 0, b := 0, alpha := 0 },
            svgWidth := 16, svgHeight := 16,
            mask := { x := 8, y := 8, width := 0, height := 0, rx := 0, ry := 0 },
            blend := "dest-in" } := by
  have hp : paddingPixels 16 ⟨50, 1⟩ = 8 := by decide
  have hc : contentSize 16 ⟨50, 1⟩ = 0 := by decide
  refine ⟨hc, ?_⟩
  unfold createRoundedImage
  rw [hp, hc]
  norm_num

/-- C1 (amended): when the padding configuration makes `contentSize ≤ 0`,
`createRoundedImage` raises no configuration error at all: the computation
is unguarded, and the pipeline is built with the non-positive content size
as its resize dimension (so any eventual failure comes from the external
image library's parameter validation, not from a check in this code). -/
theorem c1_amended_no_guard (input : String) (size : ℕ) (padding : Frac)
    (h : contentSize size padding ≤ 0) :
    ∃ pl, createRoundedImage input size padding = Except.ok pl ∧
      pl.resizeWidth = contentSize size padding ∧ pl.resizeWidth ≤ 0 :=
  ⟨_, rfl, rfl, h⟩

/-- Witness for C1 (amended) at input "icon.png", edge length 16, padding
percent 50. -/
theorem c1_amended_no_guard_witness :
    contentSize 16 ⟨50, 1⟩ ≤ 0 ∧
      ∃ pl, createRoundedImage "icon.png" 16 ⟨50, 1⟩ = Except.ok pl ∧
        pl.resizeWidth = contentSize 16 ⟨50, 1⟩ ∧ pl.resizeWidth ≤ 0 :=
  ⟨by decide, c1_amended_no_guard "icon.png" 16 ⟨50, 1⟩ (by decide)⟩

/-- C4: for every valid RenderConfig (contentSize > 0), the renderer
computes `paddingPixels = round(size * paddingPercent / 100)` (the exact
floor formula on rationals), resizes the content to
`contentSize × contentSize`, extends it by exactly `paddingPixels` fully
transparent pixels on each of the four sides, and the resulting canvas is
exactly `size × size`. -/
theorem c4_render_dimensions (input : String) (size : ℕ) (padding : Frac)
    (hden : 0 < padding.den) (h : 0 < contentSize size padding) :
    paddingPixels size padding = ⌊(size : ℚ) * padding.toRat / 100 + 1/2⌋ ∧
    ∃ pl, createRoundedImage input size padding = Except.ok pl ∧
      pl.resizeWidth = contentSize size padding ∧
      pl.resizeHeight = contentSize size padding ∧
      pl.extendTop = paddingPixels size padding ∧
      pl.extendBottom = paddingPixels size padding ∧
      pl.extendLeft = paddingPixels size padding ∧
      pl.extendRight = paddingPixels size padding ∧
      pl.extendBackground = { r := 0, g := 0, b := 0, alpha := 0 } ∧
      pl.resizeWidth + pl.extendLeft + pl.extendRight = (size : ℤ) ∧
      pl.resizeHeight + pl.extendTop + pl.extendBottom = (size : ℤ) := by
  refine ⟨paddingPixels_eq_floor size padding hden,
    _, rfl, rfl, rfl, rfl, rfl, rfl, rfl, rfl, ?_, ?_⟩ <;>
  · show contentSize size padding + paddingPixels size padding + paddingPixels size padding
        = (size : ℤ)
    unfold contentSize
    ring

/-- Witness for C4 at input "icon.png", edge length 16, padding percent
8.75 (the default, represented as 875/100): contentSize = 14 > 0. -/
theorem c4_render_dimensions_witness :
    0 < (Frac.mk 875 100).den ∧
    0 < contentSize 16 ⟨875, 100⟩ ∧
    (paddingPixels 16 ⟨875, 100⟩ =
        ⌊(16 : ℚ) * (Frac.mk 875 100).toRat / 100 + 1/2⌋ ∧
      ∃ pl, createRoundedImage "icon.png" 16 ⟨875, 100⟩ = Except.ok pl ∧
        pl.resizeWidth = contentSize 16 ⟨875, 100⟩ ∧
        pl.resizeHeight = contentSize 16 ⟨875, 100⟩ ∧
        pl.extendTop = paddingPixels 16 ⟨875, 100⟩ ∧
        pl.extendBottom = paddingPixels 16 ⟨875, 100⟩ ∧
        pl.extendLeft = paddingPixels 16 ⟨875, 100⟩ ∧
        pl.extendRight = paddingPixels 16 ⟨875, 100⟩ ∧
        pl.extendBackground = { r := 0, g := 0, b := 0, alpha := 0 } ∧
        pl.resizeWidth + pl.extendLeft + pl.extendRight = (16 : ℤ) ∧
        pl.resizeHeight + pl.extendTop + pl.extendBottom = (16 : ℤ)) :=
  ⟨by decide, by decide,
    c4_render_dimensions "icon.png" 16 ⟨875, 100⟩ (by decide) (by decide)⟩

/-- C5: the rounded-rectangle mask is a rectangle at
`(paddingPixels, paddingPixels)` of width and height `contentSize` with
corner radius `contentSize * 0.2`; in particular for padding percent 0
(numerator 0) the mask spans the full canvas (`contentSize = size`) and
touches all four canvas edges. -/
theorem c5_mask_geometry (input : String) (size : ℕ) (padding : Frac)
    (h : 0 < contentSize size padding) :
    ∃ pl, createRoundedImage input size padding = Except.ok pl ∧
      pl.mask.x = paddingPixels size padding ∧
      pl.mask.y = paddingPixels size padding ∧
      pl.mask.width = contentSize size padding ∧
      pl.mask.height = contentSize size padding ∧
      pl.mask.rx = ((contentSize size padding : ℤ) : ℚ) * (0.2 : ℚ) ∧
      pl.mask.ry = ((contentSize size padding : ℤ) : ℚ) * (0.2 : ℚ) ∧
      (padding.num = 0 →
        contentSize size padding = (size : ℤ) ∧
        pl.mask.x = 0 ∧ pl.mask.y = 0 ∧
        pl.mask.x + pl.mask.width = (size : ℤ) ∧
        pl.mask.y + pl.mask.height = (size : ℤ)) := by
  refine ⟨_, rfl, rfl, rfl, rfl, rfl, rfl, rfl, ?_⟩
  intro hp
  have hp0 : paddingPixels size padding = 0 := paddingPixels_of_num_zero size padding hp
  have hc : contentSize size padding = (size : ℤ) := by
    unfold contentSize
    rw [hp0]
    ring
  refine ⟨hc, ?_, ?_, ?_, ?_⟩
  · show paddingPixels size padding = 0
    exact hp0
  · show paddingPixels size padding = 0
    exact hp0
  · show paddingPixels size padding + contentSize size padding = (size : ℤ)
    rw [hp0, hc]
    ring
  · show paddingPixels size padding + contentSize size padding = (size : ℤ)
    rw [hp0, hc]
    ring

/-- Witness for C5 at input "icon.png", edge length 16, padding percent 0:
contentSize = 16 > 0 and the padding-zero clause is exercised. -/
theorem c5_mask_geometry_witness :
    0 < contentSize 16 ⟨0, 1⟩ ∧
      ∃ pl, createRoundedImage "icon.png" 16 ⟨0, 1⟩ = Except.ok pl ∧
        pl.mask.x = paddingPixels 16 ⟨0, 1⟩ ∧
        pl.mask.y = paddingPixels 16 ⟨0, 1⟩ ∧
        pl.mask.width = contentSize 16 ⟨0, 1⟩ ∧
        pl.mask.height = contentSize 16 ⟨0, 1⟩ ∧
        pl.mask.rx = ((contentSize 16 ⟨0, 1⟩ : ℤ) : ℚ) * (0.2 : ℚ) ∧
        pl.mask.ry = ((contentSize 16 ⟨0, 1⟩ : ℤ) : ℚ) * (0.2 : ℚ) ∧
        ((Frac.mk 0 1).num = 0 →
          contentSize 16 ⟨0, 1⟩ = (16 : ℤ) ∧
          pl.mask.x = 0 ∧ pl.mask.y = 0 ∧
          pl.mask.x + pl.mask.width = (16 : ℤ) ∧
          pl.mask.y + pl.mask.height = (16 : ℤ)) :=
  ⟨by decide, c5_mask_geometry "icon.png" 16 ⟨0, 1⟩ (by decide)⟩

/-- C9: under the default configuration's padding percent 8.75, every edge
length the size planner emits (the 14 values from 16 up to 2048) has a
strictly positive content size, so the unguarded `contentSize` computation
in `createRoundedImage` never produces a non-positive resize dimension in a
default run. -/
theorem c9_default_padding_positive_content :
    ∀ s ∈ allSizes, 0 < contentSize s.size ⟨875, 100⟩ := by
  decide

/-- Witness for C9 at the largest emitted edge length, 2048. -/
theorem c9_default_padding_positive_content_witness :
    (⟨"icon_1024x1024@2x.png", 2048⟩ : IconSize) ∈ allSizes ∧
      0 < contentSize 2048 ⟨875, 100⟩ :=
  ⟨by decide,
    c9_default_padding_positive_content ⟨"icon_1024x1024@2x.png", 2048⟩ (by decide)⟩

/-- JS `String.prototype.toLowerCase` restricted to ASCII (the only case
relevant to extension comparison). -/
def lowerStr (s : String) : String :=
  ⟨s.data.map Char.toLower⟩

/-- Characters of the final path segment (after the last '/'). -/
def basenameChars (p : String) : List Char :=
  (p.data.reverse.takeWhile fun c => c != '/').reverse

/-- JS `path.extname`: the suffix of the basename from its last '.'
(including the dot), or "" when the basename has no '.' or its last '.' is
its first character (hidden files). Modelled for POSIX separators and
ordinary file names. -/
def extname (p : String) : String :=
  let b := basenameChars p
  let afterDot := b.reverse.takeWhile fun c => c != '.'
  if afterDot.length = b.length then ""
  else if afterDot.length + 1 = b.length then ""
  else ⟨'.' :: afterDot.reverse⟩

/-- Embedding of `isSupportedFormat(filePath, supportedFormats)`: lowercase
the path's extension, then test membership in the allowlist. -/
def isSupportedFormat (filePath : String) (supportedFormats : List String) : Bool :=
  supportedFormats.contains (lowerStr (extname filePath))

/-- The merged configuration record (the fields of `defaultConfig`; a call's
options are modelled as the already-merged record `{...defaultConfig, ...options}`). -/
structure Config where
  inputFile : String
  iconsetDir : String
  outputIcns : String
  workDir : String
  outputDir : String
  padding : Frac
  supportedFormats : List String
deriving DecidableEq, Repr

/-- The `supportedFormats` allowlist of `defaultConfig`. -/
def defaultSupportedFormats : List String :=
  [".png", ".jpg", ".jpeg", ".webp", ".tiff", ".gif", ".svg", ".avif", ".heif", ".bmp"]

/-- `defaultConfig` from src/index.js; `workDir` is `process.cwd()`, passed
as the parameter `cwd`. The padding percent literal 8.75 is the fraction
875/100. -/
def defaultConfig (cwd : String) : Config :=
  { inputFile := "icon.png"
    iconsetDir := "icon.iconset"
    outputIcns := "icon.icns"
    workDir := cwd
    outputDir := "output"
    padding := ⟨875, 100⟩
    supportedFormats := defaultSupportedFormats }

/-- `path.resolve(base, p)` for the cases exercised here: an absolute `p`
wins, otherwise `p` is joined under `base`. (No "." or ".." normalization;
the paths this development uses are already normal.) -/
def resolvePath (base p : String) : String :=
  match p.data with
  | '/' :: _ => p
  | _ => base ++ "/" ++ p

/-- `path.join(dir, name)` for a relative `name`. -/
def joinPath (dir name : String) : String :=
  dir ++ "/" ++ name

/-- JS `Array.prototype.join(sep)`. -/
def joinSep (sep : String) : List String → String
  | [] => ""
  | [x] => x
  | x :: y :: xs => x ++ sep ++ joinSep sep (y :: xs)

/-- `name.replace(/^icon_/, "")`: drop a leading `icon_` when present. -/
def stripLeadingIcon (name : String) : String :=
  if ("icon_" : String).data.isPrefixOf name.data then ⟨name.data.drop 5⟩ else name

/-- Filesystem-operation events, in execution order. -/
inductive FsEvent where
  | mkdirRec (p : String)
  | mkdir (p : String)
  | remove (p : String)
  | writeFile (p : String)
  | copyFile (src dst : String)
deriving DecidableEq, Repr

/-- Abstract filesystem: the list of existing paths (files and
directories). -/
structure FsState where
  existing : List String
deriving DecidableEq, Repr

/-- `fs.existsSync`. -/
def FsState.existsSync (st : FsState) (p : String) : Bool :=
  st.existing.contains p

/-- Record a created path (`fs.mkdir`, a file write, a copy target). -/
def FsState.withAdd (st : FsState) (p : String) : FsState :=
  ⟨st.existing ++ [p]⟩

/-- `fs.remove p`: delete `p` and everything below it. -/
def FsState.withRemove (st : FsState) (p : String) : FsState :=
  ⟨st.existing.filter fun q => !(q == p || (p ++ "/").data.isPrefixOf q.data)⟩

/-- The shared prologue of `generateIconset` and `generateIcns`: create the
output directory (recursively) when it does not exist. Returns the new
state and the emitted events. -/
def ensureOutputDir (st : FsState) (outputDirPath : String) : FsState × List FsEvent :=
  if st.existsSync outputDirPath then (st, [])
  else (st.withAdd outputDirPath, [FsEvent.mkdirRec outputDirPath])

/-- `path.resolve(workDir, inputFile)` as computed by `generateIconset`. -/
def inputPathOf (cfg : Config) : String :=
  resolvePath cfg.workDir cfg.inputFile

/-- `path.resolve(workDir, outputDir)` as computed by `generateIconset`
and `generateIcns`. -/
def outputDirPathOf (cfg : Config) : String :=
  resolvePath cfg.workDir cfg.outputDir

/-- `path.resolve(outputDirPath, iconsetDir)`. -/
def iconsetPathOf (cfg : Config) : String :=
  resolvePath (outputDirPathOf cfg) cfg.iconsetDir

/-- `path.resolve(outputDirPath, outputIcns)`. -/
def outputPathOf (cfg : Config) : String :=
  resolvePath (outputDirPathOf cfg) cfg.outputIcns

/-- `path.resolve(outputDirPath, "icons")`: the flattened plain-export
directory. -/
def plainDirOf (cfg : Config) : String :=
  resolvePath (outputDirPathOf cfg) "icons"

/-- The message of the unsupported-format error thrown by
`generateIconset`. -/
def unsupportedMsg (cfg : Config) : String :=
  "Unsupported file format: " ++ extname (inputPathOf cfg)
    ++ "\nSupported formats: " ++ joinSep ", " cfg.supportedFormats

/-- The message of the missing-input error thrown by `generateIconset`. -/
def missingInputMsg (cfg : Config) : String :=
  "Input file does not exist: " ++ inputPathOf cfg

/-- The per-size output paths written into the staging directory. -/
def writePathsOf (cfg : Config) : List String :=
  allSizes.map fun s => joinPath (iconsetPathOf cfg) s.name

/-- The (source, destination) pairs of the plain-export copy loop in
`generateIcns`. -/
def copiesOf (cfg : Config) (iconsetResult : String) : List (String × String) :=
  allSizes.map fun s =>
    (joinPath iconsetResult s.name, joinPath (plainDirOf cfg) (stripLeadingIcon s.name))

/-- Result of a run: the returned value or thrown error message, the final
filesystem state, and the trace of filesystem operations. -/
structure Outcome where
  result : Except String String
  state : FsState
  events : List FsEvent

/-- Shallow embedding of `generateIconset(options)`, over an explicit
filesystem state. Rendering and writing by the external sharp library are
modelled as succeeding writes: past its two validations the repository code
raises no error of its own. -/
def generateIconset (cfg : Config) (st : FsState) : Outcome :=
  let s1 := ensureOutputDir st (outputDirPathOf cfg)
  if (s1.1.existsSync (inputPathOf cfg)) = false then
    { result := Except.error (missingInputMsg cfg), state := s1.1, events := s1.2 }
  else if (isSupportedFormat (inputPathOf cfg) cfg.supportedFormats) = false then
    { result := Except.error (unsupportedMsg cfg), state := s1.1, events := s1.2 }
  else
    { result := Except.ok (iconsetPathOf cfg)
      state := (writePathsOf cfg).foldl FsState.withAdd
        ((s1.1.withRemove (iconsetPathOf cfg)).withAdd (iconsetPathOf cfg))
      events := s1.2 ++ [FsEvent.remove (iconsetPathOf cfg), FsEvent.mkdir (iconsetPathOf cfg)]
        ++ (writePathsOf cfg).map FsEvent.writeFile }

/-- Shallow embedding of `generateIcns(options)`. The external `iconutil`
packaging step is a black-box collaborator, modelled by the `iconutil`
parameter: `Except.ok ()` when it succeeds, `Except.error e` when it fails
(the thrown error, rethrown by the `catch` block). The `.icns` file written
by iconutil itself is external output and is not added to the state. -/
def generateIcns (cfg : Config) (st : FsState) (iconutil : Except String Unit) : Outcome :=
  let s1 := ensureOutputDir st (outputDirPathOf cfg)
  let gi := generateIconset cfg s1.1
  match gi.result with
  | Except.error e => { result := Except.error e, state := gi.state, events := s1.2 ++ gi.events }
  | Except.ok iconsetResult =>
    match iconutil with
    | Except.error e => { result := Except.error e, state := gi.state, events := s1.2 ++ gi.events }
    | Except.ok _ =>
      { result := Except.ok (outputPathOf cfg)
        state := (copiesOf cfg iconsetResult).foldl (fun acc c => acc.withAdd c.2)
          ((gi.state.withRemove (plainDirOf cfg)).withAdd (plainDirOf cfg))
        events := s1.2 ++ gi.events
          ++ [FsEvent.remove (plainDirOf cfg), FsEvent.mkdir (plainDirOf cfg)]
          ++ (copiesOf cfg iconsetResult).map fun c => FsEvent.copyFile c.1 c.2 }

/-- Heap of JS arrays: cell 0 holds the module-level
`defaultConfig.supportedFormats` array; further cells are arrays handed out
to callers. -/
abbrev Heap := List (List String)

/-- Read a heap cell (an out-of-range reference reads as an empty array;
never exercised). -/
def Heap.read : Heap → ℕ → List String
  | [], _ => []
  | v :: _, 0 => v
  | _ :: h, n + 1 => Heap.read h n

/-- Mutate a heap cell in place (a JS array element assignment or
equivalent destructive update). -/
def Heap.write : Heap → ℕ → List String → Heap
  | [], _, _ => []
  | _ :: h, 0, v => v :: h
  | x :: h, n + 1, v => x :: Heap.write h n v

/-- The module heap right after load: only the default allowlist array. -/
def initHeap : Heap :=
  [defaultSupportedFormats]

/-- Embedding of `getSupportedFormats()`: the spread
`[...defaultConfig.supportedFormats]` reads the module's array (cell 0) and
allocates a fresh cell holding a copy of its contents; the call returns the
new heap and the fresh reference. -/
def getSupportedFormats (h : Heap) : Heap × ℕ :=
  (h ++ [Heap.read h 0], h.length)

/-- Adding a path to the state only adds membership for that path. -/
theorem existsSync_withAdd (st : FsState) (q p : String) :
    (st.withAdd q).existsSync p = (st.existsSync p || p == q) := by
  rcases st with ⟨l⟩
  simp only [FsState.withAdd, FsState.existsSync]
  induction l with
  | nil =>
    cases hpq : p == q <;> simp [List.contains, List.elem, hpq]
  | cons a t ih =>
    cases hpa : p == a <;> simp [List.contains, List.elem, hpa] at ih ⊢ <;> exact ih

/-- Output-directory creation does not affect the existence of a different
path. -/
theorem existsSync_ensureOutputDir (st : FsState) (d p : String) (hne : p ≠ d) :
    (ensureOutputDir st d).1.existsSync p = st.existsSync p := by
  unfold ensureOutputDir
  split
  · rfl
  · rw [existsSync_withAdd]
    have : (p == d) = false := beq_eq_false_iff_ne.mpr hne
    rw [this, Bool.or_false]

/-- Output-directory creation preserves existing paths. -/
theorem existsSync_ensureOutputDir_of_true (st : FsState) (d p : String)
    (h : st.existsSync p = true) : (ensureOutputDir st d).1.existsSync p = true := by
  unfold ensureOutputDir
  split
  · exact h
  · rw [existsSync_withAdd, h, Bool.true_or]

/-- C2 counterexample: a call with the unsupported extension `.xyz`, in a
state where the output directory does not yet exist, fails with the input
error but still creates the output directory — so a directory is created by
the failing call, contradicting the claim's "no directory on the filesystem
is created". -/
theorem c2_counterexample :
    (generateIconset { defaultConfig "/w" with inputFile := "icon.xyz" }
        ⟨["/w", "/w/icon.xyz"]⟩).result =
      Except.error ("Unsupported file format: .xyz\nSupported formats: " ++
        ".png, .jpg, .jpeg, .webp, .tiff, .gif, .svg, .avif, .heif, .bmp") ∧
    (FsState.mk ["/w", "/w/icon.xyz"]).existsSync "/w/output" = false ∧
    (generateIconset { defaultConfig "/w" with inputFile := "icon.xyz" }
        ⟨["/w", "/w/icon.xyz"]⟩).state.existsSync "/w/output" = true ∧
    (generateIconset { defaultConfig "/w" with inputFile := "icon.xyz" }
        ⟨["/w", "/w/icon.xyz"]⟩).events = [FsEvent.mkdirRec "/w/output"] :=
  ⟨rfl, rfl, rfl, rfl⟩

/-- C2 (amended): a call whose resolved input path has an unsupported
extension fails with an input error before any directory mutation other
than output-directory creation: the state changes only by the (possible)
output-directory creation, the only possible event is that creation, and in
particular the staging directory is never removed or created and no file is
written. -/
theorem c2_amended_input_error_before_mutation (cfg : Config) (st : FsState)
    (h : isSupportedFormat (inputPathOf cfg) cfg.supportedFormats = false) :
    (∃ e, (generateIconset cfg st).result = Except.error e) ∧
    (generateIconset cfg st).state = (ensureOutputDir st (outputDirPathOf cfg)).1 ∧
    (generateIconset cfg st).events = (ensureOutputDir st (outputDirPathOf cfg)).2 := by
  simp only [generateIconset]
  split_ifs with h1
  · exact ⟨⟨missingInputMsg cfg, rfl⟩, rfl, rfl⟩
  · exact ⟨⟨unsupportedMsg cfg, rfl⟩, rfl, rfl⟩

/-- Witness for C2 (amended): input `icon.xyz` in working directory `/w`,
output directory absent. -/
theorem c2_amended_witness :
    (∃ e, (generateIconset { defaultConfig "/w" with inputFile := "icon.xyz" }
        ⟨["/w", "/w/icon.xyz"]⟩).result = Except.error e) ∧
    (generateIconset { defaultConfig "/w" with inputFile := "icon.xyz" }
        ⟨["/w", "/w/icon.xyz"]⟩).state = ⟨["/w", "/w/icon.xyz", "/w/output"]⟩ ∧
    (generateIconset { defaultConfig "/w" with inputFile := "icon.xyz" }
        ⟨["/w", "/w/icon.xyz"]⟩).events = [FsEvent.mkdirRec "/w/output"] :=
  c2_amended_input_error_before_mutation
    { defaultConfig "/w" with inputFile := "icon.xyz" } ⟨["/w", "/w/icon.xyz"]⟩ (by decide)

/-- C7 counterexample: the missing-input error is not produced "whenever no
file exists at the resolved input path". With `inputFile: "output"` and the
default `outputDir: "output"` in working directory `/w`, nothing exists at
the resolved input path `/w/output` when the call starts — yet the call
first creates the output directory at that very path, so the existence
check passes and the run throws the unsupported-format error (with the
empty extension of `output`), not `Input file does not exist: /w/output`. -/
theorem c7_counterexample :
    (FsState.mk ["/w"]).existsSync
      (inputPathOf { defaultConfig "/w" with inputFile := "output" }) = false ∧
    (generateIconset { defaultConfig "/w" with inputFile := "output" }
        ⟨["/w"]⟩).result =
      Except.error ("Unsupported file format: \nSupported formats: " ++
        ".png, .jpg, .jpeg, .webp, .tiff, .gif, .svg, .avif, .heif, .bmp") ∧
    ¬ (generateIconset { defaultConfig "/w" with inputFile := "output" }
        ⟨["/w"]⟩).result =
      Except.error "Input file does not exist: /w/output" := by
  refine ⟨rfl, rfl, ?_⟩
  intro hcontra
  have h1 : (generateIconset { defaultConfig "/w" with inputFile := "output" }
      ⟨["/w"]⟩).result =
      Except.error ("Unsupported file format: \nSupported formats: " ++
        ".png, .jpg, .jpeg, .webp, .tiff, .gif, .svg, .avif, .heif, .bmp") := rfl
  rw [h1] at hcontra
  have h2 := Except.error.inj hcontra
  exact absurd h2 (by decide)

/-- C7 (amended): the two input-validation errors of `generateIconset`. A
missing input file yields exactly
`Input file does not exist: <resolved input path>` whenever nothing exists
at the resolved input path and that path is not the output directory the
call may just have created (the one case, shown by the counterexample,
where the original claim fails); an existing input with an extension
outside the allowlist yields the error naming the offending extension and
listing the accepted formats; the extension comparison lowercases the
file's extension before testing allowlist membership, so an upper-case
`.PNG` extension is accepted against the default allowlist. -/
theorem c7_input_validation (cfg : Config) (st : FsState) :
    (st.existsSync (inputPathOf cfg) = false → inputPathOf cfg ≠ outputDirPathOf cfg →
      (generateIconset cfg st).result =
        Except.error ("Input file does not exist: " ++ inputPathOf cfg)) ∧
    (st.existsSync (inputPathOf cfg) = true →
      isSupportedFormat (inputPathOf cfg) cfg.supportedFormats = false →
      (generateIconset cfg st).result =
        Except.error ("Unsupported file format: " ++ extname (inputPathOf cfg)
          ++ "\nSupported formats: " ++ joinSep ", " cfg.supportedFormats)) ∧
    (∀ p fmts, isSupportedFormat p fmts = fmts.contains (lowerStr (extname p))) ∧
    (∀ p, extname p = ".PNG" → isSupportedFormat p defaultSupportedFormats = true) := by
  refine ⟨?_, ?_, fun p fmts => rfl, ?_⟩
  · intro hmiss hne
    have hex : (ensureOutputDir st (outputDirPathOf cfg)).1.existsSync (inputPathOf cfg)
        = false := by
      rw [existsSync_ensureOutputDir st _ _ hne]
      exact hmiss
    simp only [generateIconset]
    rw [if_pos hex]
    rfl
  · intro hexists hfmt
    have hex : (ensureOutputDir st (outputDirPathOf cfg)).1.existsSync (inputPathOf cfg)
        = true :=
      existsSync_ensureOutputDir_of_true st _ _ hexists
    simp only [generateIconset]
    rw [if_neg (by simp [hex]), if_pos hfmt]
    rfl
  · intro p hp
    show defaultSupportedFormats.contains (lowerStr (extname p)) = true
    rw [hp]
    decide

/-- Witness for C7: a missing input at `/w/icon.png`, an unsupported
`.xyz` input, and an upper-case `.PNG` extension accepted. -/
theorem c7_input_validation_witness :
    (generateIconset (defaultConfig "/w") ⟨["/w"]⟩).result =
      Except.error "Input file does not exist: /w/icon.png" ∧
    (generateIconset { defaultConfig "/w" with inputFile := "icon.xyz" }
        ⟨["/w", "/w/icon.xyz"]⟩).result =
      Except.error ("Unsupported file format: .xyz\nSupported formats: " ++
        ".png, .jpg, .jpeg, .webp, .tiff, .gif, .svg, .avif, .heif, .bmp") ∧
    isSupportedFormat "/w/ICON.PNG" defaultSupportedFormats = true :=
  ⟨(c7_input_validation (defaultConfig "/w") ⟨["/w"]⟩).1 (by decide) (by decide),
   (c7_input_validation { defaultConfig "/w" with inputFile := "icon.xyz" }
      ⟨["/w", "/w/icon.xyz"]⟩).2.1 (by decide) (by decide),
   (c7_input_validation (defaultConfig "/w") ⟨["/w"]⟩).2.2.2 "/w/ICON.PNG" (by decide)⟩

/-- C8: the plain-export pass and the result contract of `generateIcns`.
The 14 staged filenames renamed by stripping the leading `icon_` prefix are
exactly the canonical plain names; if iconset generation fails its error is
rethrown; if packaging fails its error is rethrown; and when both succeed
the call returns the resolved output path and its trace, after the staging
events, removes and recreates the plain export directory and then copies
every one of the 14 staged files onto its stripped name, so the plain
export directory receives exactly the staged images renamed. -/
theorem c8_packaging_and_plain_export (cfg : Config) (st : FsState)
    (iconutil : Except String Unit) :
    ((allSizes.map fun s => stripLeadingIcon s.name) =
      ["16x16.png", "16x16@2x.png", "32x32.png", "32x32@2x.png",
       "64x64.png", "64x64@2x.png", "128x128.png", "128x128@2x.png",
       "256x256.png", "256x256@2x.png", "512x512.png", "512x512@2x.png",
       "1024x1024.png", "1024x1024@2x.png"]) ∧
    (∀ e, (generateIconset cfg (ensureOutputDir st (outputDirPathOf cfg)).1).result
        = Except.error e →
      (generateIcns cfg st iconutil).result = Except.error e) ∧
    (∀ e p, (generateIconset cfg (ensureOutputDir st (outputDirPathOf cfg)).1).result
        = Except.ok p →
      iconutil = Except.error e →
      (generateIcns cfg st iconutil).result = Except.error e) ∧
    (∀ p, (generateIconset cfg (ensureOutputDir st (outputDirPathOf cfg)).1).result
        = Except.ok p →
      iconutil = Except.ok () →
      (generateIcns cfg st iconutil).result = Except.ok (outputPathOf cfg) ∧
      (generateIcns cfg st iconutil).events =
        (ensureOutputDir st (outputDirPathOf cfg)).2
          ++ (generateIconset cfg (ensureOutputDir st (outputDirPathOf cfg)).1).events
          ++ [FsEvent.remove (plainDirOf cfg), FsEvent.mkdir (plainDirOf cfg)]
          ++ (copiesOf cfg p).map (fun c => FsEvent.copyFile c.1 c.2) ∧
      (generateIcns cfg st iconutil).state =
        (copiesOf cfg p).foldl (fun acc c => acc.withAdd c.2)
          (((generateIconset cfg
              (ensureOutputDir st (outputDirPathOf cfg)).1).state.withRemove
            (plainDirOf cfg)).withAdd (plainDirOf cfg))) := by
  refine ⟨by decide, ?_, ?_, ?_⟩
  · intro e he
    simp only [generateIcns]
    rw [he]
  · intro e p hp hiu
    simp only [generateIcns]
    rw [hp, hiu]
  · intro p hp hiu
    simp only [generateIcns]
    rw [hp, hiu]
    exact ⟨rfl, rfl, rfl⟩

/-- Witness for C8: a default run in `/w` with the input present and the
external packager succeeding returns the resolved `.icns` output path. -/
theorem c8_packaging_and_plain_export_witness :
    (generateIcns (defaultConfig "/w") ⟨["/w", "/w/icon.png"]⟩ (Except.ok ())).result
      = Except.ok "/w/output/icon.icns" :=
  ((c8_packaging_and_plain_export (defaultConfig "/w") ⟨["/w", "/w/icon.png"]⟩
      (Except.ok ())).2.2.2 "/w/output/icon.iconset" rfl rfl).1

/-- Reading the freshly appended cell returns the appended contents. -/
theorem heap_read_append_length (h : Heap) (x : List String) :
    Heap.read (h ++ [x]) h.length = x := by
  induction h with
  | nil => rfl
  | cons a t ih => exact ih

/-- Writing a non-zero cell leaves cell 0 unchanged. -/
theorem heap_read_write_zero_of_ne (h : Heap) (r : ℕ) (v : List String)
    (hr : r ≠ 0) : Heap.read (Heap.write h r v) 0 = Heap.read h 0 := by
  cases h with
  | nil => rfl
  | cons a t =>
    cases r with
    | zero => exact absurd rfl hr
    | succ n => rfl

/-- Appending a cell leaves cell 0 of a nonempty heap unchanged. -/
theorem heap_read_zero_append (h : Heap) (x : List String) (hne : h ≠ []) :
    Heap.read (h ++ [x]) 0 = Heap.read h 0 := by
  cases h with
  | nil => exact absurd rfl hne
  | cons a t => rfl

/-- C10: `getSupportedFormats` returns a fresh copy of the default
allowlist. In any heap whose module cell holds the default allowlist, the
returned reference is distinct from the module cell, the returned array
equals the default allowlist element-for-element, and overwriting the
returned array leaves the module cell — and the result of a subsequent
call — unchanged. -/
theorem c10_supported_formats_fresh_copy (h : Heap)
    (hd : Heap.read h 0 = defaultSupportedFormats) :
    (getSupportedFormats h).2 ≠ 0 ∧
    Heap.read (getSupportedFormats h).1 (getSupportedFormats h).2
      = defaultSupportedFormats ∧
    ∀ v, Heap.read (Heap.write (getSupportedFormats h).1 (getSupportedFormats h).2 v) 0
        = defaultSupportedFormats ∧
      Heap.read
        (getSupportedFormats
          (Heap.write (getSupportedFormats h).1 (getSupportedFormats h).2 v)).1
        (getSupportedFormats
          (Heap.write (getSupportedFormats h).1 (getSupportedFormats h).2 v)).2
        = defaultSupportedFormats := by
  have hlen : h ≠ [] := by
    intro hnil
    rw [hnil] at hd
    exact absurd hd (by decide)
  have hpos : h.length ≠ 0 := fun hh => hlen (List.length_eq_zero.mp hh)
  refine ⟨hpos, ?_, ?_⟩
  · show Heap.read (h ++ [Heap.read h 0]) h.length = defaultSupportedFormats
    rw [heap_read_append_length, hd]
  · intro v
    have hz : Heap.read (Heap.write (h ++ [Heap.read h 0]) h.length v) 0
        = defaultSupportedFormats := by
      rw [heap_read_write_zero_of_ne _ _ _ hpos, heap_read_zero_append h _ hlen, hd]
    refine ⟨hz, ?_⟩
    show Heap.read
        (Heap.write (h ++ [Heap.read h 0]) h.length v
          ++ [Heap.read (Heap.write (h ++ [Heap.read h 0]) h.length v) 0])
        (Heap.write (h ++ [Heap.read h 0]) h.length v).length
      = defaultSupportedFormats
    rw [heap_read_append_length, hz]

/-- Witness for C10: the module heap at load time, mutating the returned
array to `[".exe"]`. -/
theorem c10_supported_formats_fresh_copy_witness :
    (getSupportedFormats initHeap).2 ≠ 0 ∧
    Heap.read (getSupportedFormats initHeap).1 (getSupportedFormats initHeap).2
      = defaultSupportedFormats ∧
    (Heap.read
        (Heap.write (getSupportedFormats initHeap).1 (getSupportedFormats initHeap).2
          [".exe"]) 0 = defaultSupportedFormats ∧
      Heap.read
        (getSupportedFormats
          (Heap.write (getSupportedFormats initHeap).1 (getSupportedFormats initHeap).2
            [".exe"])).1
        (getSupportedFormats
          (Heap.write (getSupportedFormats initHeap).1 (getSupportedFormats initHeap).2
            [".exe"])).2
        = defaultSupportedFormats) :=
  ⟨(c10_supported_formats_fresh_copy initHeap rfl).1,
   (c10_supported_formats_fresh_copy initHeap rfl).2.1,
   (c10_supported_formats_fresh_copy initHeap rfl).2.2 [".exe"]⟩

end IcnsGen
